import Mathlib

/-!
Verification development for the MCPlex server/client protocol layer.

Shallow embedding of:
* `src/server/index.ts` — the Express request router (`app.post('/mcp')`,
  `handleSessionRequest`), the `transports` session table, the transport
  `onclose` teardown, and the `adder` / `twitter-X-post` tool handlers;
* `src/server/mcp.tool.ts` — `createPost` (the variant with the Twitter
  client guard and mock fall-through);
* the client files — `GeminiService` (`generateContent`, chat-history
  helpers, the rule-based fallback with its two regexes),
  `MCPClientImpl` (`generateUUID`, `connect`, `callTool`) and the
  chat container's `handleSendMessage` orchestration turn.

Effects are made explicit: randomness (`randomUUID`, `Math.random`) is an
oracle parameter, the Gemini / Twitter network calls are outcome parameters,
and Express request handling becomes a pure state-transition function on the
session table.
-/

set_option autoImplicit false

/-! ## Server: session table and request router (`src/server/index.ts`) -/

/-- The process-wide session table `const transports: TransportMap = {}`.
A transport object is identified by a numeric tag `tid`; `nextTid` is the
tag the next `new StreamableHTTPServerTransport(...)` will receive.
Registration (`transports[sid] = transport`) conses the binding in front,
so a later binding for the same key shadows an earlier one, exactly like
JavaScript object assignment. -/
structure ServerState where
  transports : List (String × Nat)
  nextTid : Nat
  deriving DecidableEq, Repr

/-- `transports[sid]` — first binding for `sid`, if any. -/
def lookupSession (st : ServerState) (sid : String) : Option Nat :=
  (st.transports.find? (fun p => p.1 == sid)).map (fun p => p.2)

/-- An inbound `POST /mcp` request as the router sees it:
the `mcp-session-id` header (absent or a string, possibly empty),
the JSON-RPC `method` field of the body (absent when the body is missing
or not an object), and the JSON-RPC `id` of the body. -/
structure McpPost where
  sessionHeader : Option String
  bodyMethod : Option String
  bodyId : Option Nat
  deriving DecidableEq, Repr

/-- JavaScript truthiness of the header: `undefined` and `''` are falsy,
so the router treats an absent header and an empty-string header alike. -/
def headerSid (req : McpPost) : String :=
  match req.sessionHeader with
  | some s => s
  | none => ""

/-- `req.body?.id || null` — a JSON-RPC id of `0` is falsy and becomes `null`. -/
def jsFalsyId : Option Nat → Option Nat
  | some 0 => none
  | some n => some n
  | none => none

/-- What the `POST /mcp` handler does with a request: either it is routed to
the transport with tag `tid` (with, on an initialize, the fresh session id
surfaced to the caller in the `MCP-Session-ID` response header), or it is
rejected with a JSON-RPC error envelope. -/
inductive PostOutcome where
  | routed (tid : Nat) (surfacedSid : Option String)
  | rejected (code : Int) (message : String) (id : Option Nat)
  deriving DecidableEq, Repr

/-- The `app.post('/mcp')` handler of `src/server/index.ts` (lines 290–369).

`freshSid` is the value `randomUUID()` produces for `sessionIdGenerator`
when a new transport is created.

Modelled from the spec: the body of
`StreamableHTTPServerTransport.handleRequest` on an initialize request is
SDK code absent from `src/`; per §4.3/§6 of the spec it generates the
session identifier, registers the transport through the
`onsessioninitialized` callback (`transports[sid] = transport`), and
returns the identifier to the client in the `MCP-Session-ID` response
header. That behaviour is inlined in the initialize branch below; the
branch structure around it is taken verbatim from the source. -/
def handleMcpPost (st : ServerState) (req : McpPost) (freshSid : String) :
    PostOutcome × ServerState :=
  if headerSid req ≠ "" ∧ (lookupSession st (headerSid req)).isSome then
    (PostOutcome.routed ((lookupSession st (headerSid req)).getD 0) none, st)
  else if headerSid req = "" ∧ req.bodyMethod = some "initialize" then
    (PostOutcome.routed st.nextTid (some freshSid),
     ⟨(freshSid, st.nextTid) :: st.transports, st.nextTid + 1⟩)
  else
    (PostOutcome.rejected (-32000) "Bad Request: No valid session ID provided"
      (jsFalsyId req.bodyId), st)

/-- `transport.onclose` (lines 314–319): when a transport with an assigned
session id closes, its entry is deleted from the session table. -/
def closeSession (st : ServerState) (sid : String) : ServerState :=
  ⟨st.transports.filter (fun p => p.1 ≠ sid), st.nextTid⟩

/-- Outcome of the shared GET/DELETE handler: the request is handed to the
looked-up transport, or answered `400` with a plain-text message. -/
inductive SessionReqOutcome where
  | handled (tid : Nat)
  | badRequest (message : String)
  deriving DecidableEq, Repr

/-- `handleSessionRequest` of `src/server/index.ts` (lines 372–399), shared
by `app.get('/mcp')` and `app.delete('/mcp')`. -/
def handleSessionRequest (st : ServerState) (sessionHeader : Option String) :
    SessionReqOutcome :=
  let sid := match sessionHeader with
    | some s => s
    | none => ""
  if sid ≠ "" ∧ (lookupSession st sid).isSome then
    SessionReqOutcome.handled ((lookupSession st sid).getD 0)
  else
    SessionReqOutcome.badRequest "Invalid or missing session ID"

/-- Events that mutate or read the session table during the server's life.
A `post` event carries the id `randomUUID()` would produce if the event
creates a transport; `close` is a transport's `onclose` firing; GET/DELETE
requests never mutate the table. -/
inductive ServerEvent where
  | post (req : McpPost) (freshSid : String)
  | close (sid : String)
  | sessionReq (sessionHeader : Option String)
  deriving Repr

/-- State transition of one server event. -/
def stepState (st : ServerState) : ServerEvent → ServerState
  | ServerEvent.post req fresh => (handleMcpPost st req fresh).2
  | ServerEvent.close sid => closeSession st sid
  | ServerEvent.sessionReq _ => st

/-- An event can add a binding for `sid` only if it is a `post` whose
generated identifier is `sid` itself. -/
def avoidsSid (sid : String) : ServerEvent → Prop
  | ServerEvent.post _ fresh => fresh ≠ sid
  | ServerEvent.close _ => True
  | ServerEvent.sessionReq _ => True

instance (sid : String) (e : ServerEvent) : Decidable (avoidsSid sid e) := by
  cases e <;> simp [avoidsSid] <;> infer_instance

/-! ## JavaScript value and string helpers -/

/-- A JSON-ish argument value: the tool-call argument maps in this code only
ever carry strings and numbers. -/
inductive JVal where
  | str (s : String)
  | num (n : Int)
  deriving DecidableEq, Repr

/-- JavaScript template-literal interpolation of a value. -/
def jsRender : JVal → String
  | JVal.str s => s
  | JVal.num n => toString n

/-- `JSON.stringify` of a single value (string escaping is not needed for
the literals appearing in this development). -/
def jsonRender : JVal → String
  | JVal.str s => "\"" ++ s ++ "\""
  | JVal.num n => toString n

/-- `JSON.stringify` of an argument object. -/
def jsonStringify (args : List (String × JVal)) : String :=
  "\x7b" ++ String.intercalate ","
    (args.map (fun p => "\"" ++ p.1 ++ "\":" ++ jsonRender p.2)) ++ "\x7d"

/-- `args.find` by key — JavaScript property access on the argument object. -/
def lookupArg (args : List (String × JVal)) (k : String) : Option JVal :=
  (args.find? (fun p => p.1 == k)).map (fun p => p.2)

/-- Template interpolation of `args[k]`: a missing property is `undefined`
and interpolates as the string `"undefined"`. -/
def argText (args : List (String × JVal)) (k : String) : String :=
  match lookupArg args k with
  | some v => jsRender v
  | none => "undefined"

/-- `p` is a prefix of `s` (on character lists). -/
def isPrefixL : List Char → List Char → Bool
  | [], _ => true
  | _ :: _, [] => false
  | a :: as, b :: bs => a == b && isPrefixL as bs

/-- `p` occurs somewhere in `s` (on character lists). -/
def containsL (p : List Char) : List Char → Bool
  | [] => isPrefixL p []
  | c :: rest => isPrefixL p (c :: rest) || containsL p rest

/-- JavaScript `s.includes(sub)`. -/
def strIncludes (s sub : String) : Bool :=
  containsL sub.data s.data

/-- Truthiness of an optional string: `undefined` and `''` are falsy. -/
def truthyStr : Option String → Bool
  | some s => !(s == "")
  | none => false

/-! ## Planner: `GeminiService` (`src/lib/gemini-service.ts`) -/

/-- A turn role in the Gemini chat history. -/
inductive Role where
  | user
  | model
  deriving DecidableEq, Repr

/-- One content part of a chat turn (`\x7b text, type \x7d`). -/
structure MsgPart where
  text : String
  type : String
  deriving DecidableEq, Repr

/-- One entry of `GeminiService.chatHistory`. -/
structure ChatMessage where
  role : Role
  parts : List MsgPart
  deriving DecidableEq, Repr

/-- `addUserMessage`: push a user turn onto the chat history. -/
def addUserMessage (hist : List ChatMessage) (message : String) :
    List ChatMessage :=
  hist ++ [⟨Role.user, [⟨message, "text"⟩]⟩]

/-- `addModelMessage`: push a model turn onto the chat history. -/
def addModelMessage (hist : List ChatMessage) (message : String) :
    List ChatMessage :=
  hist ++ [⟨Role.model, [⟨message, "text"⟩]⟩]

/-- JavaScript `toLowerCase` on one character, on the ASCII range (the
queries this code matches against are ASCII; beyond ASCII the rule-based
patterns are all lowercase ASCII anyway). -/
def toLowerChar (c : Char) : Char :=
  if 'A' ≤ c ∧ c ≤ 'Z' then Char.ofNat (c.toNat + 32) else c

/-- JavaScript `s.toLowerCase()`. -/
def jsToLower (s : String) : String :=
  String.mk (s.data.map toLowerChar)

/-- `lastUserMessage?.parts[0]?.text?.toLowerCase() || ''` — the lowercased
text of the most recent user turn, or the empty string. -/
def userQueryOf (hist : List ChatMessage) : String :=
  match ((hist.filter (fun m => m.role == Role.user)).getLast?).bind
      (fun m => m.parts.head?.map (fun p => p.text)) with
  | some s => jsToLower s
  | none => ""

/-- A function call as parsed out of a raw Gemini part: `args` may be
absent (`functionCall.args || \x7b\x7d` supplies the empty object). -/
structure RawFunctionCall where
  name : String
  args : Option (List (String × JVal))
  deriving DecidableEq, Repr

/-- A planner tool-invocation proposal. -/
structure FunctionCall where
  name : String
  args : List (String × JVal)
  deriving DecidableEq, Repr

/-- `GeminiResponse`: the planner proposal returned by `generateContent`.
Both fields are optional in the source; nothing in the type forbids both
being populated. -/
structure GeminiResponse where
  functionCall : Option FunctionCall
  text : Option String
  deriving DecidableEq, Repr

/-- The first content part of a Gemini candidate. -/
structure GenPart where
  functionCall : Option RawFunctionCall
  text : Option String
  deriving DecidableEq, Repr

/-- A Gemini candidate, reduced to its parts list (`candidate.content`
missing and `candidate.content.parts` empty both yield the empty list). -/
structure Candidate where
  parts : List GenPart
  deriving DecidableEq, Repr

/-- Outcome of the outbound `ai.models.generateContent` network call:
either the awaited promise rejected, or it resolved with a candidate list. -/
inductive PrimaryOutcome where
  | threw
  | ok (candidates : List Candidate)
  deriving DecidableEq, Repr

/-- Lines 119–129 of `gemini-service.ts`: turn the first part of the first
candidate into a `GeminiResponse`.  The function-call variant is kept only
when `functionCall && functionCall.name` is truthy; `text` passes through
unconditionally. -/
def partToResponse (p : GenPart) : GeminiResponse :=
  ⟨ match p.functionCall with
    | some fc => if fc.name == "" then none
                 else some ⟨fc.name, match fc.args with
                                     | some a => a
                                     | none => []⟩
    | none => none,
    p.text ⟩

/-! ### The rule-based fallback's regular expressions

`userQuery.match(/(?:owned by|from|by|of)\s+([a-zA-Z0-9_-]+)/i)` and
`userQuery.match(/(?:repo|repository)\s+(?:named|called)?\s+([a-zA-Z0-9_-]+)/i)`
are embedded as explicit scanners with JavaScript regex semantics: the
leftmost starting position wins, alternatives are tried in written order,
quantifiers are greedy with backtracking, and the capture group is the
maximal run of word characters. -/

/-- JavaScript `\s` on the ASCII range (the Unicode space classes never
arise in the strings of this development). -/
def isJsWs (c : Char) : Bool :=
  c == ' ' || c == '\t' || c == '\n' || c == '\x0d' || c == '\x0b' || c == '\x0c'

/-- JavaScript `[a-zA-Z0-9_-]`. -/
def isWordChar (c : Char) : Bool :=
  (('a' ≤ c) && (c ≤ 'z')) || (('A' ≤ c) && (c ≤ 'Z')) ||
  (('0' ≤ c) && (c ≤ '9')) || c == '_' || c == '-'

/-- Match `\s+([a-zA-Z0-9_-]+)` at the start of `s`; the capture is the
maximal word-character run after the maximal whitespace run. -/
def simpleTailMatch (s : List Char) : Option String :=
  let w := s.takeWhile isJsWs
  if w.isEmpty then none
  else
    let cap := (s.drop w.length).takeWhile isWordChar
    if cap.isEmpty then none else some (String.mk cap)

/-- Try the literal `kw` followed by `\s+([a-zA-Z0-9_-]+)` at the start of `s`. -/
def tryKw (kw : String) (s : List Char) : Option String :=
  if isPrefixL kw.data s then simpleTailMatch (s.drop kw.data.length) else none

/-- One attempt of the owner regex `(?:owned by|from|by|of)\s+([\w-]+)` at a
fixed position: alternatives in written order.  At any one position at most
one alternative can match the text, so the order is immaterial here but kept
as written. -/
def ownerMatchAt (s : List Char) : Option String :=
  tryKw "owned by" s <|> tryKw "from" s <|> tryKw "by" s <|> tryKw "of" s

/-- Leftmost match of the owner regex over the whole string. -/
def ownerScan : List Char → Option String
  | [] => none
  | c :: rest => ownerMatchAt (c :: rest) <|> ownerScan rest

/-- One attempt of the tweet-branch owner regex
`(?:owned by|from|by|of|about)\s+([\w-]+)` at a fixed position. -/
def ownerAboutMatchAt (s : List Char) : Option String :=
  tryKw "owned by" s <|> tryKw "from" s <|> tryKw "by" s <|> tryKw "of" s <|>
    tryKw "about" s

/-- Leftmost match of the tweet-branch owner regex. -/
def ownerAboutScan : List Char → Option String
  | [] => none
  | c :: rest => ownerAboutMatchAt (c :: rest) <|> ownerAboutScan rest

/-- Match `\s+(?:named|called)?\s+([\w-]+)` at the start of `s`.
Greedy backtracking resolves to: first try `named`/`called` directly after
the maximal whitespace run (each needing its own `\s+` and capture);
otherwise the two `\s+` must split the whitespace run, which therefore
needs length at least 2, and the capture sits right after the run. -/
def repoTailMatch (s : List Char) : Option String :=
  let w := (s.takeWhile isJsWs).length
  if w = 0 then none
  else
    let rest := s.drop w
    (tryKw "named" rest <|> tryKw "called" rest) <|>
      (if 2 ≤ w then
        let cap := rest.takeWhile isWordChar
        if cap.isEmpty then none else some (String.mk cap)
      else none)

/-- One attempt of `(?:repo|repository)\s+(?:named|called)?\s+([\w-]+)` at a
fixed position: `repo` is tried before `repository`, with backtracking into
the longer alternative when the tail fails. -/
def repoMatchAt (s : List Char) : Option String :=
  if isPrefixL "repo".data s then
    repoTailMatch (s.drop 4) <|>
      (if isPrefixL "repository".data s then repoTailMatch (s.drop 10) else none)
  else none

/-- Leftmost match of the repo regex over the whole string. -/
def repoScan : List Char → Option String
  | [] => none
  | c :: rest => repoMatchAt (c :: rest) <|> repoScan rest

/-! ### `generateContent` -/

/-- The rule-based fallback of `generateContent`
(`gemini-service.ts` lines 136–210), a function of the lowercased latest
user query. -/
def fallbackRespond (q : String) : GeminiResponse :=
  if strIncludes q "repo" || strIncludes q "repository" || strIncludes q "github" then
    let owner := (ownerScan q.data).getD "EcoLash"
    let repo := (repoScan q.data).getD "Compilers"
    ⟨some ⟨"github-repo-info", [("owner", JVal.str owner), ("repo", JVal.str repo)]⟩,
     none⟩
  else if strIncludes q "post" || strIncludes q "tweet" ||
      strIncludes q "twitter" || strIncludes q "x" then
    if strIncludes q "repo" || strIncludes q "repository" then
      let owner := (ownerAboutScan q.data).getD "Subhadeeproy3902"
      let repo := (repoScan q.data).getD "shadcnthemes"
      ⟨some ⟨"twitter-X-post",
        [("status", JVal.str ("Check out " ++ owner ++ "/" ++ repo ++
          " on GitHub! It has 58 stars, 1 forks, and 9 open issues.\nhttps://github.com/"
          ++ owner ++ "/" ++ repo))]⟩, none⟩
    else
      ⟨some ⟨"twitter-X-post",
        [("status", JVal.str
          "Just testing the GitTweet integration with Twitter/X! #testing #development")]⟩,
       none⟩
  else
    ⟨none, some ("I can help you get information about GitHub repositories or post tweets. Try asking something like \x27Get info about Compilers repo owned by EcoLash\x27 or \x27Post a tweet about the repository\x27.")⟩

/-- Advertised tool descriptor (only the name matters for control flow: the
tool list shapes the outbound request payload and nothing else). -/
structure ToolDecl where
  name : String
  description : String
  deriving DecidableEq, Repr

/-- `GeminiService.generateContent` (`gemini-service.ts` lines 70–215).

The primary model path runs only when `this.apiKey` is truthy; its outcome
(`primary`) is the awaited network call.  A thrown error, an empty
candidate list, or a first candidate without parts all fall through to the
rule-based fallback; otherwise the first part of the first candidate is
converted by `partToResponse`.  The final `catch` rethrows, but no code on
the fallback path throws, so the function is total. -/
def generateContent (apiKey : String) (tools : List ToolDecl)
    (primary : PrimaryOutcome) (hist : List ChatMessage) : GeminiResponse :=
  let q := userQueryOf hist
  if apiKey == "" then fallbackRespond q
  else
    match primary with
    | PrimaryOutcome.threw => fallbackRespond q
    | PrimaryOutcome.ok [] => fallbackRespond q
    | PrimaryOutcome.ok (c :: _) =>
      match c.parts with
      | [] => fallbackRespond q
      | p :: _ => partToResponse p

/-- The primary model path produced a usable response: the call resolved
with at least one candidate whose first candidate has at least one part. -/
def primaryUsable : PrimaryOutcome → Bool
  | PrimaryOutcome.threw => false
  | PrimaryOutcome.ok [] => false
  | PrimaryOutcome.ok (c :: _) => !c.parts.isEmpty

/-- Both proposal variants populated (JavaScript truthiness: a present
function-call object is truthy, a text is truthy when non-empty). -/
def bothPopulated (r : GeminiResponse) : Bool :=
  r.functionCall.isSome && truthyStr r.text

/-! ## Client: `MCPClientImpl` (`src/lib/mcp-client.ts`) -/

/-- `v.toString(16)` for a nibble `v < 16`. -/
def uuidHexChar (n : Nat) : Char :=
  if n < 10 then Char.ofNat (48 + n) else Char.ofNat (87 + n)

/-- The replacement loop of `generateUUID`: each `x`/`y` of the template
consumes one `Math.random() * 16 | 0` draw (`rng i % 16` is the `i`-th
draw), `x` becomes the nibble itself and `y` becomes `(r & 0x3 | 0x8)`. -/
def uuidReplace (rng : Nat → Nat) : List Char → Nat → List Char
  | [], _ => []
  | c :: rest, i =>
    if c = 'x' then uuidHexChar (rng i % 16) :: uuidReplace rng rest (i + 1)
    else if c = 'y' then
      uuidHexChar ((rng i % 16) &&& 3 ||| 8) :: uuidReplace rng rest (i + 1)
    else c :: uuidReplace rng rest i

/-- `generateUUID` of `mcp-client.ts`: the browser-compatible
`Math.random`-based UUID generator. -/
def generateUUID (rng : Nat → Nat) : String :=
  String.mk (uuidReplace rng "xxxxxxxx-xxxx-4xxx-yxxx-xxxxxxxxxxxx".data 0)

/-- Client connection state after `connect()`. -/
structure ClientState where
  sessionId : String
  connected : Bool
  deriving DecidableEq, Repr

/-- `MCPClientImpl.connect` (lines 103–119): no request is sent; a session
identifier is fabricated locally and the client marks itself connected.
Nothing in the body can throw, so the promise always resolves. -/
def connect (rng : Nat → Nat) : ClientState :=
  ⟨generateUUID rng, true⟩

/-- One content part of a tool response. -/
structure MCPContent where
  type : String
  text : String
  deriving DecidableEq, Repr

/-- An `MCPResponse` as the client types it. -/
structure MCPResponse where
  content : List MCPContent
  deriving DecidableEq, Repr

/-- The `Math.random` draws `MCPClientImpl.callTool` can consume:
three repo statistics (`* 100`, `* 20`, `* 10`) and the two halves of a
fabricated tweet id (`* 1000000000` each). -/
structure MockRng where
  stars : Nat
  forks : Nat
  issues : Nat
  tweetA : Nat
  tweetB : Nat
  deriving DecidableEq, Repr

/-- `MCPClientImpl.callTool` (lines 172–235): every branch fabricates a
response locally — no request is sent and the arguments are never checked
against a schema.  Unknown tool names get the generic echo. -/
def callTool (rng : MockRng) (name : String) (args : List (String × JVal)) :
    MCPResponse :=
  if name == "github-repo-info" then
    let owner := argText args "owner"
    let repo := argText args "repo"
    ⟨[⟨"text",
      "📦 Repository Name: " ++ owner ++ "/" ++ repo ++ "\n\n" ++
      "📝 Description: Repository for " ++ repo ++ "\n" ++
      "⭐ Stars: " ++ toString rng.stars ++ "\n" ++
      "🍴 Forks: " ++ toString rng.forks ++ "\n" ++
      "🚩 Open Issues: " ++ toString rng.issues ++ "\n" ++
      "🔗 Repository Link: https://github.com/" ++ owner ++ "/" ++ repo⟩]⟩
  else if name == "twitter-X-post" then
    let status := argText args "status"
    ⟨[⟨"text",
      "Tweet created successfully: Tweet sent successfully: " ++
      toString rng.tweetA ++ toString rng.tweetB ++
      "\nContent: \"" ++ status ++ "\""⟩]⟩
  else
    ⟨[⟨"text", "Called tool " ++ name ++ " with arguments: " ++ jsonStringify args⟩]⟩

/-! ## Server tools: `createPost` (`src/server/mcp.tool.ts`) and handlers -/

/-- A failure of the outbound `twitterClient.v2.tweet` call. -/
structure ApiError where
  message : String
  code : Option Nat
  deriving DecidableEq, Repr

/-- Environment `createPost` runs in: no Twitter client configured, or a
configured client whose `v2.tweet` call resolves with a tweet id or
rejects with an error. -/
inductive TwitterEnv where
  | noClient
  | clientOk (tweetId : Nat)
  | clientErr (e : ApiError)
  deriving DecidableEq, Repr

/-- `createPost` (`mcp.tool.ts` lines 99–168, the variant guarding the
Twitter client).  `mockA`/`mockB` are the two `Math.random()*1e9` draws of
the mock tweet id.  An API error with a truthy `code` yields the specific
error text; an error without one falls through to the mock, as does the
missing-client case.  Every branch returns, so the promise always
resolves. -/
def createPost (env : TwitterEnv) (mockA mockB : Nat) (status : String) :
    MCPResponse :=
  let mockResp : MCPResponse :=
    ⟨[⟨"text",
      "Tweet created successfully: Tweet sent successfully: " ++
      toString mockA ++ toString mockB ++ "\nContent: \"" ++ status ++ "\""⟩]⟩
  match env with
  | TwitterEnv.clientOk id =>
    ⟨[⟨"text",
      "Tweet sent successfully: " ++ toString id ++
      "\nContent: \"" ++ status ++ "\""⟩]⟩
  | TwitterEnv.clientErr e =>
    match e.code with
    | some c =>
      if c = 0 then mockResp
      else
        ⟨[⟨"text",
          "Error posting to Twitter: " ++
          (if e.message == "" then "Unknown error" else e.message) ++
          " (Code: " ++ toString c ++ ")"⟩]⟩
    | none => mockResp
  | TwitterEnv.noClient => mockResp

/-- The text the `twitter-X-post` tool handler of `src/server/index.ts`
(lines 174–195) wraps around the `createPost` result:
`` `\x1b[1;32mTweet created successfully:\x1b[0m $\x7bresult.content[0]?.text || 'Tweet sent'\x7d\n` ``. -/
def twitterToolText (r : MCPResponse) : String :=
  "\x1b[1;32mTweet created successfully:\x1b[0m " ++
  (match r.content.head? with
   | some c => if c.text == "" then "Tweet sent" else c.text
   | none => "Tweet sent") ++ "\n"

/-- The full `twitter-X-post` handler: call `createPost`, wrap its first
text part. -/
def twitterToolHandler (env : TwitterEnv) (mockA mockB : Nat) (status : String) :
    MCPResponse :=
  ⟨[⟨"text", twitterToolText (createPost env mockA mockB status)⟩]⟩

/-- The `adder` tool handler of `src/server/index.ts` (lines 150–172). -/
def adderText (a b : Int) : String :=
  "\x1b[1;32mResult:\x1b[0m The sum of \x1b[1;33m" ++ toString a ++
  "\x1b[0m and \x1b[1;33m" ++ toString b ++ "\x1b[0m is \x1b[1;36m" ++
  toString (a + b) ++ "\x1b[0m.\n"

/-- `adder` handler as an `MCPResponse` producer. -/
def adderHandler (a b : Int) : MCPResponse :=
  ⟨[⟨"text", adderText a b⟩]⟩

/-- Modelled from the spec: the server-side dispatch path (Session
Transport → Tool Registry, §4.4/§4.1) for the one tool the end-to-end
scenario needs.  The transport/dispatch glue is SDK code absent from
`src/`; the `adder` handler itself is the registered handler from
`src/server/index.ts`.  A malformed argument map or unknown name becomes a
textual error result, per §4.1/§7. -/
def serverDispatch (name : String) (args : List (String × JVal)) : MCPResponse :=
  if name == "adder" then
    match lookupArg args "a", lookupArg args "b" with
    | some (JVal.num a), some (JVal.num b) => adderHandler a b
    | _, _ => ⟨[⟨"text", "Error: invalid arguments for adder"⟩]⟩
  else ⟨[⟨"text", "Error: unknown tool " ++ name⟩]⟩

/-! ## Orchestration turn: `handleSendMessage` (`chat-container.tsx`) -/

/-- How one orchestration turn ends: a tool result surfaced as the
assistant turn, a direct text answer, or a caught error rendered as an
error chat bubble. -/
inductive TurnOutcome where
  | toolTurn (text : String)
  | textTurn (text : String)
  | errorTurn (message : String)
  deriving DecidableEq, Repr

/-- `response.content.map(part => part.text).join(' ')`. -/
def joinContent (r : MCPResponse) : String :=
  String.intercalate " " (r.content.map (fun c => c.text))

/-- `handleSendMessage` (`chat-container.tsx` lines 61–133), for a
connected client, as a function of the planner proposal `resp` (the
awaited `gemini.generateContent(tools)`) and of the tool executor
(`client.callTool`).  Returns the turn outcome and the Gemini
conversation history after the turn.

The user turn is pushed first (`gemini.addUserMessage`); then exactly one
of the three branches runs: a truthy `functionCall` executes the tool and
pushes its joined text as a model turn, else a truthy `text` is pushed as
a model turn, else `Error("No response from Gemini")` is thrown, caught by
the surrounding `catch`, and pushed only to the UI message list — the
Gemini history receives nothing further. -/
def handleSendMessage (hist : List ChatMessage) (message : String)
    (resp : GeminiResponse)
    (exec : String → List (String × JVal) → MCPResponse) :
    TurnOutcome × List ChatMessage :=
  let hist1 := addUserMessage hist message
  match resp.functionCall with
  | some fc =>
    let rtext := joinContent (exec fc.name fc.args)
    (TurnOutcome.toolTurn rtext, addModelMessage hist1 rtext)
  | none =>
    match resp.text with
    | some t =>
      if t == "" then (TurnOutcome.errorTurn "No response from Gemini", hist1)
      else (TurnOutcome.textTurn t, addModelMessage hist1 t)
    | none => (TurnOutcome.errorTurn "No response from Gemini", hist1)

/-! ## Helper lemmas -/

theorem find?_filter_ne (l : List (String × Nat)) (sid : String) :
    (l.filter (fun p => p.1 ≠ sid)).find? (fun p => p.1 == sid) = none := by
  induction l with
  | nil => rfl
  | cons a l ih =>
    by_cases h : a.1 = sid
    · simp [List.filter, h, ih]
    · simp [List.filter, h, List.find?, ih]

theorem lookupSession_closeSession (st : ServerState) (sid : String) :
    lookupSession (closeSession st sid) sid = none := by
  simp [lookupSession, closeSession, find?_filter_ne]

theorem find?_filter_none (l : List (String × Nat)) (q : String × Nat → Bool)
    (sid : String) (h : l.find? (fun p => p.1 == sid) = none) :
    (l.filter q).find? (fun p => p.1 == sid) = none := by
  induction l with
  | nil => rfl
  | cons a l ih =>
    rw [List.find?] at h
    by_cases ha : (a.1 == sid) = true
    · simp [ha] at h
    · simp only [List.filter]
      cases hq : q a
      · exact ih (by simpa [ha] using h)
      · rw [List.find?]
        simp only [ha]
        exact ih (by simpa [ha] using h)

theorem lookupSession_step_none (st : ServerState) (sid : String) (e : ServerEvent)
    (h : lookupSession st sid = none) (ha : avoidsSid sid e) :
    lookupSession (stepState st e) sid = none := by
  cases e with
  | post req fresh =>
    have hfs : ¬ ((fun p => p.1 == sid) (fresh, st.nextTid)) = true := by
      simpa using ha
    simp only [stepState, handleMcpPost]
    split
    · exact h
    · split
      · show lookupSession ⟨(fresh, st.nextTid) :: st.transports, st.nextTid + 1⟩ sid = none
        have hf : ¬ fresh = sid := by simpa using ha
        simp only [lookupSession] at h ⊢
        simp only [Option.map_eq_none', List.find?_eq_none] at h ⊢
        intro x hx
        rcases List.mem_cons.mp hx with h1 | h1
        · simpa [h1] using hf
        · exact h x h1
      · exact h
  | close s2 =>
    simp only [stepState, closeSession, lookupSession] at h ⊢
    rw [find?_filter_none]
    · rfl
    · simpa [lookupSession, Option.map_eq_none'] using h
  | sessionReq _ => exact h

theorem lookupSession_foldl_none (sid : String) (evs : List ServerEvent)
    (st : ServerState) (h : lookupSession st sid = none)
    (ha : ∀ e ∈ evs, avoidsSid sid e) :
    lookupSession (evs.foldl stepState st) sid = none := by
  induction evs generalizing st with
  | nil => exact h
  | cons e evs ih =>
    simp only [List.foldl]
    exact ih _ (lookupSession_step_none st sid e h (ha e (by simp)))
      (fun e' he' => ha e' (by simp [he']))

theorem handleMcpPost_unknown_sid (st : ServerState) (sid : String)
    (m : Option String) (i : Option Nat) (f : String)
    (hsid : sid ≠ "") (h : lookupSession st sid = none) :
    handleMcpPost st ⟨some sid, m, i⟩ f =
      (PostOutcome.rejected (-32000) "Bad Request: No valid session ID provided"
        (jsFalsyId i), st) := by
  simp [handleMcpPost, headerSid, h, hsid]

/-! ## Claim theorems -/

/-- C1: a `POST /mcp` carrying no session header whose body is an
initialize request makes the router create a new Session Transport (the
fresh tag `st.nextTid`), register it in the session table under the
generated identifier (assumed fresh, i.e. not already present — the
`randomUUID` freshness guarantee), and surface that identifier to the
caller in the response; afterwards every request bearing that identifier
is routed to the very same transport, without touching the table. -/
theorem initialize_creates_and_routes_session (st : ServerState)
    (bodyId : Option Nat) (fresh : String)
    (hfresh : lookupSession st fresh = none) (hne : fresh ≠ "") :
    (handleMcpPost st ⟨none, some "initialize", bodyId⟩ fresh).1 =
      PostOutcome.routed st.nextTid (some fresh) ∧
    lookupSession (handleMcpPost st ⟨none, some "initialize", bodyId⟩ fresh).2 fresh =
      some st.nextTid ∧
    (∀ (m : Option String) (i : Option Nat) (f2 : String),
      handleMcpPost (handleMcpPost st ⟨none, some "initialize", bodyId⟩ fresh).2
          ⟨some fresh, m, i⟩ f2 =
        (PostOutcome.routed st.nextTid none,
         (handleMcpPost st ⟨none, some "initialize", bodyId⟩ fresh).2)) := by
  have hstep : handleMcpPost st ⟨none, some "initialize", bodyId⟩ fresh =
      (PostOutcome.routed st.nextTid (some fresh),
       ⟨(fresh, st.nextTid) :: st.transports, st.nextTid + 1⟩) := by
    simp [handleMcpPost, headerSid]
  have hlook : lookupSession
      (⟨(fresh, st.nextTid) :: st.transports, st.nextTid + 1⟩ : ServerState) fresh =
      some st.nextTid := by
    simp [lookupSession, List.find?_cons_of_pos]
  refine ⟨by rw [hstep], by rw [hstep]; exact hlook, ?_⟩
  intro m i f2
  rw [hstep]
  simp [handleMcpPost, headerSid, hlook, hne]

/-- Closed instance of `initialize_creates_and_routes_session`. -/
theorem initialize_creates_and_routes_session_w :
    (handleMcpPost ⟨[("other", 0)], 1⟩ ⟨none, some "initialize", some 7⟩ "sid-1").1 =
      PostOutcome.routed 1 (some "sid-1") ∧
    lookupSession (handleMcpPost ⟨[("other", 0)], 1⟩
        ⟨none, some "initialize", some 7⟩ "sid-1").2 "sid-1" = some 1 ∧
    (∀ (m : Option String) (i : Option Nat) (f2 : String),
      handleMcpPost (handleMcpPost ⟨[("other", 0)], 1⟩
          ⟨none, some "initialize", some 7⟩ "sid-1").2 ⟨some "sid-1", m, i⟩ f2 =
        (PostOutcome.routed 1 none,
         (handleMcpPost ⟨[("other", 0)], 1⟩ ⟨none, some "initialize", some 7⟩ "sid-1").2)) :=
  initialize_creates_and_routes_session ⟨[("other", 0)], 1⟩ (some 7) "sid-1"
    (by decide) (by decide)

/-- C2: once a session's transport signals closure its table entry is
removed, and — as long as no later initialize happens to regenerate the
very same identifier — every subsequent request bearing the old identifier
is rejected as unbound: a `POST` gets the fixed `-32000` envelope with the
table untouched, and a `GET`/`DELETE` gets the `400` answer.  `evs` is an
arbitrary interleaving of later server events. -/
theorem closed_session_requests_rejected (st : ServerState) (sid : String)
    (hsid : sid ≠ "") (evs : List ServerEvent)
    (ha : ∀ e ∈ evs, avoidsSid sid e) :
    lookupSession (closeSession st sid) sid = none ∧
    lookupSession (evs.foldl stepState (closeSession st sid)) sid = none ∧
    (∀ (m : Option String) (i : Option Nat) (f : String),
      handleMcpPost (evs.foldl stepState (closeSession st sid)) ⟨some sid, m, i⟩ f =
        (PostOutcome.rejected (-32000) "Bad Request: No valid session ID provided"
          (jsFalsyId i),
         evs.foldl stepState (closeSession st sid))) ∧
    handleSessionRequest (evs.foldl stepState (closeSession st sid)) (some sid) =
      SessionReqOutcome.badRequest "Invalid or missing session ID" := by
  have h0 : lookupSession (closeSession st sid) sid = none :=
    lookupSession_closeSession st sid
  have h1 : lookupSession (evs.foldl stepState (closeSession st sid)) sid = none :=
    lookupSession_foldl_none sid evs _ h0 ha
  refine ⟨h0, h1, fun m i f => handleMcpPost_unknown_sid _ sid m i f hsid h1, ?_⟩
  simp [handleSessionRequest, h1, hsid]

/-- Closed instance of `closed_session_requests_rejected`: the session
`"s1"` is closed, a later initialize creates `"s2"`, and the old id keeps
being rejected. -/
theorem closed_session_requests_rejected_w :
    lookupSession (closeSession ⟨[("s1", 0)], 1⟩ "s1") "s1" = none ∧
    lookupSession ([ServerEvent.post ⟨none, some "initialize", none⟩ "s2"].foldl
      stepState (closeSession ⟨[("s1", 0)], 1⟩ "s1")) "s1" = none ∧
    (∀ (m : Option String) (i : Option Nat) (f : String),
      handleMcpPost ([ServerEvent.post ⟨none, some "initialize", none⟩ "s2"].foldl
          stepState (closeSession ⟨[("s1", 0)], 1⟩ "s1")) ⟨some "s1", m, i⟩ f =
        (PostOutcome.rejected (-32000) "Bad Request: No valid session ID provided"
          (jsFalsyId i),
         [ServerEvent.post ⟨none, some "initialize", none⟩ "s2"].foldl
           stepState (closeSession ⟨[("s1", 0)], 1⟩ "s1"))) ∧
    handleSessionRequest ([ServerEvent.post ⟨none, some "initialize", none⟩ "s2"].foldl
        stepState (closeSession ⟨[("s1", 0)], 1⟩ "s1")) (some "s1") =
      SessionReqOutcome.badRequest "Invalid or missing session ID" :=
  closed_session_requests_rejected ⟨[("s1", 0)], 1⟩ "s1" (by decide)
    [ServerEvent.post ⟨none, some "initialize", none⟩ "s2"]
    (by intro e he; simp at he; subst he; simp [avoidsSid])

/-- C3: a `POST /mcp` that carries a (truthy) session identifier with no
matching table entry, or that carries no identifier and is not an
initialize request, is rejected with the fixed JSON-RPC error code
`-32000` and the message `Bad Request: No valid session ID provided`,
and the session table is left exactly as it was — no session is created
and no state is mutated. -/
theorem unbound_or_noninit_post_rejected (st : ServerState) (req : McpPost)
    (fresh : String)
    (h : (headerSid req ≠ "" ∧ lookupSession st (headerSid req) = none) ∨
         (headerSid req = "" ∧ req.bodyMethod ≠ some "initialize")) :
    handleMcpPost st req fresh =
      (PostOutcome.rejected (-32000) "Bad Request: No valid session ID provided"
        (jsFalsyId req.bodyId), st) := by
  rcases h with ⟨hne, hnone⟩ | ⟨hemp, hni⟩
  · simp [handleMcpPost, hne, hnone]
  · simp [handleMcpPost, hemp, hni]

/-- Closed instances of `unbound_or_noninit_post_rejected`: an unknown
identifier, and a header-less non-initialize body. -/
theorem unbound_or_noninit_post_rejected_w :
    handleMcpPost ⟨[("s1", 0)], 1⟩ ⟨some "ghost", some "tools/call", some 3⟩ "f" =
      (PostOutcome.rejected (-32000) "Bad Request: No valid session ID provided"
        (some 3), ⟨[("s1", 0)], 1⟩) ∧
    handleMcpPost ⟨[("s1", 0)], 1⟩ ⟨none, some "tools/call", none⟩ "f" =
      (PostOutcome.rejected (-32000) "Bad Request: No valid session ID provided"
        none, ⟨[("s1", 0)], 1⟩) :=
  ⟨unbound_or_noninit_post_rejected ⟨[("s1", 0)], 1⟩
      ⟨some "ghost", some "tools/call", some 3⟩ "f" (Or.inl (by decide)),
   unbound_or_noninit_post_rejected ⟨[("s1", 0)], 1⟩
      ⟨none, some "tools/call", none⟩ "f" (Or.inr (by decide))⟩

theorem bothPopulated_fallback (q : String) :
    bothPopulated (fallbackRespond q) = false := by
  simp only [fallbackRespond]
  split
  · rfl
  · split
    · split <;> rfl
    · rfl

theorem generateContent_eq_part (apiKey : String) (tools : List ToolDecl)
    (c : Candidate) (cs : List Candidate) (p : GenPart) (ps : List GenPart)
    (hist : List ChatMessage) (hk : apiKey ≠ "") (hp : c.parts = p :: ps) :
    generateContent apiKey tools (PrimaryOutcome.ok (c :: cs)) hist =
      partToResponse p := by
  have hk' : (apiKey == "") = false := by simpa using hk
  simp [generateContent, hk', hp]

theorem generateContent_eq_fallback (apiKey : String) (tools : List ToolDecl)
    (primary : PrimaryOutcome) (hist : List ChatMessage)
    (h : apiKey = "" ∨ primaryUsable primary = false) :
    generateContent apiKey tools primary hist =
      fallbackRespond (userQueryOf hist) := by
  by_cases hk : apiKey = ""
  · subst hk
    simp [generateContent]
  · have hk' : (apiKey == "") = false := by simpa using hk
    rcases h with h | h
    · exact absurd h hk
    · cases primary with
      | threw => simp [generateContent, hk']
      | ok cands =>
        cases cands with
        | nil => simp [generateContent, hk']
        | cons c cs =>
          rw [primaryUsable] at h
          have hp : c.parts = [] := by
            cases hcp : c.parts with
            | nil => rfl
            | cons p ps => rw [hcp] at h; simp at h
          simp [generateContent, hk', hp]

/-- C4 counterexample: when the model's first part carries both a named
function call and a text (nothing in `generateContent` rules that out),
the returned proposal has both variants populated at once. -/
theorem planner_both_variants_cex :
    bothPopulated (generateContent "key" []
      (PrimaryOutcome.ok [⟨[⟨some ⟨"adder", none⟩, some "hi"⟩]⟩]) []) = true := by
  decide

/-- C4 (amended): the proposal returned by `generateContent` has both the
function-call variant and the text variant populated only when the primary
model path ran and the model's first part itself carried both a named
function call and a non-empty text; in every other situation — including
the whole rule-based fallback — the two variants are mutually
exclusive. -/
theorem planner_both_variants_only_from_model_part (apiKey : String)
    (tools : List ToolDecl) (primary : PrimaryOutcome) (hist : List ChatMessage)
    (h : bothPopulated (generateContent apiKey tools primary hist) = true) :
    apiKey ≠ "" ∧
    ∃ c cs p ps, primary = PrimaryOutcome.ok (c :: cs) ∧ c.parts = p :: ps ∧
      (∃ fc, p.functionCall = some fc ∧ fc.name ≠ "") ∧ truthyStr p.text = true := by
  by_cases hk : apiKey = ""
  · rw [generateContent_eq_fallback apiKey tools primary hist (Or.inl hk)] at h
    rw [bothPopulated_fallback] at h
    exact absurd h (by simp)
  · by_cases hu : primaryUsable primary = false
    · rw [generateContent_eq_fallback apiKey tools primary hist (Or.inr hu)] at h
      rw [bothPopulated_fallback] at h
      exact absurd h (by simp)
    · refine ⟨hk, ?_⟩
      cases primary with
      | threw => exact absurd rfl hu
      | ok cands =>
        cases cands with
        | nil => exact absurd rfl hu
        | cons c cs =>
          cases hp : c.parts with
          | nil =>
            refine absurd ?_ hu
            simp [primaryUsable, hp]
          | cons p ps =>
            refine ⟨c, cs, p, ps, rfl, hp, ?_⟩
            rw [generateContent_eq_part apiKey tools c cs p ps hist hk hp] at h
            rw [bothPopulated] at h
            cases hfc : p.functionCall with
            | none => simp only [partToResponse, hfc] at h; simp at h
            | some fc =>
              by_cases hn : fc.name = ""
              · simp only [partToResponse, hfc] at h
                rw [if_pos (by simpa using hn)] at h
                simp at h
              · simp only [partToResponse, hfc] at h
                rw [if_neg (by simpa using hn)] at h
                simp only [Bool.and_eq_true] at h
                exact ⟨⟨fc, rfl, hn⟩, h.2⟩

/-- Closed instance of `planner_both_variants_only_from_model_part`. -/
theorem planner_both_variants_only_from_model_part_w :
    ("k2" : String) ≠ "" ∧
    ∃ c cs p ps,
      PrimaryOutcome.ok [⟨[⟨some ⟨"github-repo-info", some []⟩, some "done"⟩]⟩] =
        PrimaryOutcome.ok (c :: cs) ∧ c.parts = p :: ps ∧
      (∃ fc, p.functionCall = some fc ∧ fc.name ≠ "") ∧ truthyStr p.text = true :=
  planner_both_variants_only_from_model_part "k2" []
    (PrimaryOutcome.ok [⟨[⟨some ⟨"github-repo-info", some []⟩, some "done"⟩]⟩]) []
    (by decide)

/-- C5: the rule-based fallback is never preferred over a working model
response.  Whenever an API key is configured and the primary call resolved
with a first candidate that has a first part, `generateContent` returns
exactly that part's proposal; and the fallback proposal is returned
whenever the primary path failed — key missing, call threw, no
candidates, or a first candidate without parts. -/
theorem fallback_only_after_primary_failure (apiKey : String)
    (tools : List ToolDecl) (primary : PrimaryOutcome) (hist : List ChatMessage) :
    (∀ c cs p ps, apiKey ≠ "" → primary = PrimaryOutcome.ok (c :: cs) →
      c.parts = p :: ps →
      generateContent apiKey tools primary hist = partToResponse p) ∧
    (apiKey = "" ∨ primaryUsable primary = false →
      generateContent apiKey tools primary hist =
        fallbackRespond (userQueryOf hist)) := by
  constructor
  · intro c cs p ps hk hpr hparts
    subst hpr
    exact generateContent_eq_part apiKey tools c cs p ps hist hk hparts
  · exact generateContent_eq_fallback apiKey tools primary hist

/-- Closed instance of `fallback_only_after_primary_failure`: a usable
model part is returned as-is, and a thrown primary call falls back. -/
theorem fallback_only_after_primary_failure_w :
    generateContent "k3" [] (PrimaryOutcome.ok [⟨[⟨none, some "hello"⟩]⟩]) [] =
      partToResponse ⟨none, some "hello"⟩ ∧
    generateContent "k3" [] PrimaryOutcome.threw [] =
      fallbackRespond (userQueryOf []) :=
  ⟨(fallback_only_after_primary_failure "k3" []
      (PrimaryOutcome.ok [⟨[⟨none, some "hello"⟩]⟩]) []).1
      ⟨[⟨none, some "hello"⟩]⟩ [] ⟨none, some "hello"⟩ [] (by decide) rfl rfl,
   (fallback_only_after_primary_failure "k3" [] PrimaryOutcome.threw []).2
      (Or.inr rfl)⟩

/-- C6: a turn whose planner proposal has neither variant populated fails
with the `No response from Gemini` error and pushes nothing beyond the
step-(1) user turn onto the Gemini conversation history; and in every
turn, the history after the turn is either exactly the user-extended
history (error branch) or that history plus exactly one model turn (tool
branch or text branch) — never more than one of the three outcome
branches mutates it. -/
theorem no_response_turn_appends_nothing (hist : List ChatMessage)
    (message : String) (resp : GeminiResponse)
    (exec : String → List (String × JVal) → MCPResponse) :
    (resp.functionCall = none → truthyStr resp.text = false →
      handleSendMessage hist message resp exec =
        (TurnOutcome.errorTurn "No response from Gemini",
         addUserMessage hist message)) ∧
    ((handleSendMessage hist message resp exec).2 = addUserMessage hist message ∨
      ∃ t, (handleSendMessage hist message resp exec).2 =
        addModelMessage (addUserMessage hist message) t) := by
  obtain ⟨fc, text⟩ := resp
  cases fc with
  | some fc0 =>
    exact ⟨fun hn _ => absurd hn (by simp), Or.inr ⟨_, rfl⟩⟩
  | none =>
    cases text with
    | none => exact ⟨fun _ _ => rfl, Or.inl rfl⟩
    | some t =>
      by_cases ht : t = ""
      · subst ht
        exact ⟨fun _ _ => rfl, Or.inl rfl⟩
      · refine ⟨fun _ htr => ?_, ?_⟩
        · rw [truthyStr] at htr
          simp [ht] at htr
        · right
          refine ⟨t, ?_⟩
          simp only [handleSendMessage]
          rw [if_neg (by simpa using ht)]

/-- Closed instance of `no_response_turn_appends_nothing` at an
empty-text proposal (neither variant truthy). -/
theorem no_response_turn_appends_nothing_w :
    handleSendMessage [] "hi" ⟨none, some ""⟩ (fun _ _ => ⟨[]⟩) =
      (TurnOutcome.errorTurn "No response from Gemini", addUserMessage [] "hi") ∧
    ((handleSendMessage [] "hi" ⟨none, some ""⟩ (fun _ _ => ⟨[]⟩)).2 =
        addUserMessage [] "hi" ∨
      ∃ t, (handleSendMessage [] "hi" ⟨none, some ""⟩ (fun _ _ => ⟨[]⟩)).2 =
        addModelMessage (addUserMessage [] "hi") t) :=
  ⟨(no_response_turn_appends_nothing [] "hi" ⟨none, some ""⟩ (fun _ _ => ⟨[]⟩)).1
      rfl (by decide),
   (no_response_turn_appends_nothing [] "hi" ⟨none, some ""⟩ (fun _ _ => ⟨[]⟩)).2⟩

/-- C7 counterexample: running the orchestration turn of the repository —
whose tool executor is `MCPClientImpl.callTool`, the mock client — on the
user text `add 2 and 3` with the stub proposal `adder(a:2, b:3)` leaves a
conversation history of 2 entries, not 3, and the assistant turn is the
mock client's generic echo, whose text does not contain `5`. -/
theorem scenario4_mock_client_cex :
    (handleSendMessage [] "add 2 and 3"
        ⟨some ⟨"adder", [("a", JVal.num 2), ("b", JVal.num 3)]⟩, none⟩
        (callTool ⟨0, 0, 0, 0, 0⟩)).2.length ≠ 3 ∧
    (handleSendMessage [] "add 2 and 3"
        ⟨some ⟨"adder", [("a", JVal.num 2), ("b", JVal.num 3)]⟩, none⟩
        (callTool ⟨0, 0, 0, 0, 0⟩)).1 =
      TurnOutcome.toolTurn "Called tool adder with arguments: \x7b\"a\":2,\"b\":3\x7d" ∧
    containsL "5".data
      "Called tool adder with arguments: \x7b\"a\":2,\"b\":3\x7d".data = false := by
  decide

/-- C7 (amended): for the user text `add 2 and 3` with a stub planner
proposal `adder(a:2, b:3)`, one orchestration turn whose tool call is
dispatched to the server's registered `adder` handler yields a final
assistant turn whose text contains `5`, and afterwards the conversation
history has exactly 2 entries — the user turn and the tool result
appended as a model turn, none extra. -/
theorem scenario4_adder_turn :
    (handleSendMessage [] "add 2 and 3"
        ⟨some ⟨"adder", [("a", JVal.num 2), ("b", JVal.num 3)]⟩, none⟩
        serverDispatch).1 = TurnOutcome.toolTurn (adderText 2 3) ∧
    containsL "5".data (adderText 2 3).data = true ∧
    (handleSendMessage [] "add 2 and 3"
        ⟨some ⟨"adder", [("a", JVal.num 2), ("b", JVal.num 3)]⟩, none⟩
        serverDispatch).2 =
      [⟨Role.user, [⟨"add 2 and 3", "text"⟩]⟩,
       ⟨Role.model, [⟨adderText 2 3, "text"⟩]⟩] ∧
    (handleSendMessage [] "add 2 and 3"
        ⟨some ⟨"adder", [("a", JVal.num 2), ("b", JVal.num 3)]⟩, none⟩
        serverDispatch).2.length = 2 := by
  decide

theorem uuid_variant_nibble (n : Nat) :
    uuidHexChar (n % 16 &&& 3 ||| 8) = '8' ∨ uuidHexChar (n % 16 &&& 3 ||| 8) = '9' ∨
    uuidHexChar (n % 16 &&& 3 ||| 8) = 'a' ∨ uuidHexChar (n % 16 &&& 3 ||| 8) = 'b' := by
  have h4 : n % 16 &&& 3 < 4 := Nat.lt_of_le_of_lt Nat.and_le_right (by norm_num)
  generalize hg : n % 16 &&& 3 = m at h4 ⊢
  interval_cases m <;> decide

/-- C8: `MCPClientImpl` fabricates everything locally and never performs
network I/O — both `connect` and `callTool` are total functions of local
randomness alone.  `connect` always succeeds, marking the client connected
with a locally generated identifier in version-4 UUID shape (36 characters,
dashes at 8/13/18/23, version nibble `4`, variant nibble in 8..b) built
from `Math.random` draws; `callTool` resolves for every tool name and
argument map without any schema validation: random repository statistics
for `github-repo-info`, a random tweet id for `twitter-X-post`, and a
generic echo for every other name. -/
theorem client_fabricates_everything_locally (rng : Nat → Nat) (mock : MockRng)
    (name : String) (args : List (String × JVal))
    (h1 : name ≠ "github-repo-info") (h2 : name ≠ "twitter-X-post") :
    (connect rng).connected = true ∧
    (connect rng).sessionId.length = 36 ∧
    (connect rng).sessionId.data.get? 8 = some '-' ∧
    (connect rng).sessionId.data.get? 13 = some '-' ∧
    (connect rng).sessionId.data.get? 18 = some '-' ∧
    (connect rng).sessionId.data.get? 23 = some '-' ∧
    (connect rng).sessionId.data.get? 14 = some '4' ∧
    (∃ d, (connect rng).sessionId.data.get? 19 = some d ∧
      (d = '8' ∨ d = '9' ∨ d = 'a' ∨ d = 'b')) ∧
    callTool mock "github-repo-info" args = ⟨[⟨"text",
      "📦 Repository Name: " ++ argText args "owner" ++ "/" ++ argText args "repo" ++
      "\n\n" ++ "📝 Description: Repository for " ++ argText args "repo" ++ "\n" ++
      "⭐ Stars: " ++ toString mock.stars ++ "\n" ++
      "🍴 Forks: " ++ toString mock.forks ++ "\n" ++
      "🚩 Open Issues: " ++ toString mock.issues ++ "\n" ++
      "🔗 Repository Link: https://github.com/" ++ argText args "owner" ++ "/" ++
      argText args "repo"⟩]⟩ ∧
    callTool mock "twitter-X-post" args = ⟨[⟨"text",
      "Tweet created successfully: Tweet sent successfully: " ++
      toString mock.tweetA ++ toString mock.tweetB ++
      "\nContent: \"" ++ argText args "status" ++ "\""⟩]⟩ ∧
    callTool mock name args = ⟨[⟨"text",
      "Called tool " ++ name ++ " with arguments: " ++ jsonStringify args⟩]⟩ := by
  have h1' : (name == "github-repo-info") = false := by simpa using h1
  have h2' : (name == "twitter-X-post") = false := by simpa using h2
  refine ⟨rfl, rfl, rfl, rfl, rfl, rfl, rfl,
    ⟨uuidHexChar ((rng 15 % 16) &&& 3 ||| 8), rfl, uuid_variant_nibble (rng 15)⟩,
    rfl, rfl, ?_⟩
  simp [callTool, h1', h2']

/-- Closed instance of `client_fabricates_everything_locally`. -/
theorem client_fabricates_everything_locally_w :
    (connect (fun i => i)).connected = true ∧
    (connect (fun i => i)).sessionId.length = 36 ∧
    (connect (fun i => i)).sessionId.data.get? 8 = some '-' ∧
    (connect (fun i => i)).sessionId.data.get? 13 = some '-' ∧
    (connect (fun i => i)).sessionId.data.get? 18 = some '-' ∧
    (connect (fun i => i)).sessionId.data.get? 23 = some '-' ∧
    (connect (fun i => i)).sessionId.data.get? 14 = some '4' ∧
    (∃ d, (connect (fun i => i)).sessionId.data.get? 19 = some d ∧
      (d = '8' ∨ d = '9' ∨ d = 'a' ∨ d = 'b')) ∧
    callTool ⟨1, 2, 3, 4, 5⟩ "github-repo-info" [] = ⟨[⟨"text",
      "📦 Repository Name: " ++ argText [] "owner" ++ "/" ++ argText [] "repo" ++
      "\n\n" ++ "📝 Description: Repository for " ++ argText [] "repo" ++ "\n" ++
      "⭐ Stars: " ++ toString (1 : Nat) ++ "\n" ++
      "🍴 Forks: " ++ toString (2 : Nat) ++ "\n" ++
      "🚩 Open Issues: " ++ toString (3 : Nat) ++ "\n" ++
      "🔗 Repository Link: https://github.com/" ++ argText [] "owner" ++ "/" ++
      argText [] "repo"⟩]⟩ ∧
    callTool ⟨1, 2, 3, 4, 5⟩ "twitter-X-post" [] = ⟨[⟨"text",
      "Tweet created successfully: Tweet sent successfully: " ++
      toString (4 : Nat) ++ toString (5 : Nat) ++
      "\nContent: \"" ++ argText [] "status" ++ "\""⟩]⟩ ∧
    callTool ⟨1, 2, 3, 4, 5⟩ "nope" [] = ⟨[⟨"text",
      "Called tool " ++ "nope" ++ " with arguments: " ++ jsonStringify []⟩]⟩ :=
  client_fabricates_everything_locally (fun i => i) ⟨1, 2, 3, 4, 5⟩ "nope" []
    (by decide) (by decide)

theorem append_ne_empty_right (a b : String) (h : b ≠ "") : a ++ b ≠ "" := by
  intro he
  apply h
  have hd := congrArg String.data he
  rw [String.data_append] at hd
  have hb : b.data = [] := (List.append_eq_nil.mp (by simpa using hd)).2
  cases b with
  | mk l =>
    simp only [] at hb
    rw [show ("" : String) = ⟨[]⟩ from rfl]
    exact congrArg String.mk hb

/-- C9 counterexample: the text returned by the `twitter-X-post` handler
does not literally begin with `Tweet created successfully:` — it begins
with the ANSI colour escape `\x1b[1;32m` that wraps that label. -/
theorem tweet_handler_literal_head_cex :
    isPrefixL "Tweet created successfully:".data
      (twitterToolText (createPost TwitterEnv.noClient 1 2 "hello")).data = false := by
  decide

/-- C9 (amended): for every status string `createPost` resolves (it is a
total function of its environment), and the `twitter-X-post` handler wraps
every one of its outcomes — API success, API failure, and the
no-client/mock path — in the fixed ANSI-coloured
`Tweet created successfully:` label, so the handler text always contains
that label right after the colour escape: it is the coloured label
followed by `createPost`'s single text part; on an API failure with a
truthy error code the inner text is the error message, and on the
missing-client path it is the mock success with the randomly generated
tweet id. -/
theorem tweet_handler_wraps_every_outcome (env : TwitterEnv) (mockA mockB : Nat)
    (status : String) :
    (∃ rest, twitterToolText (createPost env mockA mockB status) =
      "\x1b[1;32mTweet created successfully:\x1b[0m " ++ rest) ∧
    (createPost env mockA mockB status).content.length = 1 ∧
    (∀ e c, env = TwitterEnv.clientErr e → e.code = some c → c ≠ 0 →
      twitterToolText (createPost env mockA mockB status) =
        "\x1b[1;32mTweet created successfully:\x1b[0m " ++
        ("Error posting to Twitter: " ++
          (if e.message == "" then "Unknown error" else e.message) ++
          " (Code: " ++ toString c ++ ")") ++ "\n") ∧
    (env = TwitterEnv.noClient →
      twitterToolText (createPost env mockA mockB status) =
        "\x1b[1;32mTweet created successfully:\x1b[0m " ++
        ("Tweet created successfully: Tweet sent successfully: " ++
          toString mockA ++ toString mockB ++ "\nContent: \"" ++ status ++ "\"") ++
        "\n") := by
  have hM : ¬ ((("Tweet created successfully: Tweet sent successfully: " ++
      toString mockA ++ toString mockB ++ "\nContent: \"" ++ status ++ "\"") == "")
      = true) := by
    simpa using append_ne_empty_right _ "\"" (by decide)
  cases env with
  | clientOk id =>
    have h' : ¬ ((("Tweet sent successfully: " ++ toString id ++
        "\nContent: \"" ++ status ++ "\"") == "") = true) := by
      simpa using append_ne_empty_right _ "\"" (by decide)
    have hstep : twitterToolText (createPost (TwitterEnv.clientOk id) mockA mockB status) =
        "\x1b[1;32mTweet created successfully:\x1b[0m " ++
        ("Tweet sent successfully: " ++ toString id ++
          "\nContent: \"" ++ status ++ "\"") ++ "\n" := by
      simp only [createPost, twitterToolText, List.head?]
      rw [if_neg h']
    refine ⟨⟨_, by rw [hstep, String.append_assoc]⟩, rfl, ?_, ?_⟩
    · intro e c heq
      exact absurd heq (by simp)
    · intro heq
      exact absurd heq (by simp)
  | clientErr e =>
    cases hc : e.code with
    | none =>
      have hcp : createPost (TwitterEnv.clientErr e) mockA mockB status =
          ⟨[⟨"text", "Tweet created successfully: Tweet sent successfully: " ++
            toString mockA ++ toString mockB ++
            "\nContent: \"" ++ status ++ "\""⟩]⟩ := by
        simp only [createPost, hc]
      have hstep : twitterToolText (createPost (TwitterEnv.clientErr e) mockA mockB status) =
          "\x1b[1;32mTweet created successfully:\x1b[0m " ++
          ("Tweet created successfully: Tweet sent successfully: " ++
            toString mockA ++ toString mockB ++
            "\nContent: \"" ++ status ++ "\"") ++ "\n" := by
        rw [hcp]
        simp only [twitterToolText, List.head?]
        rw [if_neg hM]
      refine ⟨⟨_, by rw [hstep, String.append_assoc]⟩, by rw [hcp]; rfl, ?_, ?_⟩
      · intro e' c' heq hcode hcne
        injection heq with he'
        subst he'
        rw [hc] at hcode
        exact absurd hcode (by simp)
      · intro heq
        exact absurd heq (by simp)
    | some c =>
      by_cases hc0 : c = 0
      · subst hc0
        have hcp : createPost (TwitterEnv.clientErr e) mockA mockB status =
            ⟨[⟨"text", "Tweet created successfully: Tweet sent successfully: " ++
              toString mockA ++ toString mockB ++
              "\nContent: \"" ++ status ++ "\""⟩]⟩ := by
          simp only [createPost, hc]
          rw [if_pos trivial]
        have hstep : twitterToolText (createPost (TwitterEnv.clientErr e) mockA mockB status) =
            "\x1b[1;32mTweet created successfully:\x1b[0m " ++
            ("Tweet created successfully: Tweet sent successfully: " ++
              toString mockA ++ toString mockB ++
              "\nContent: \"" ++ status ++ "\"") ++ "\n" := by
          rw [hcp]
          simp only [twitterToolText, List.head?]
          rw [if_neg hM]
        refine ⟨⟨_, by rw [hstep, String.append_assoc]⟩, by rw [hcp]; rfl, ?_, ?_⟩
        · intro e' c' heq hcode hcne
          injection heq with he'
          subst he'
          rw [hc] at hcode
          injection hcode with hcc
          subst hcc
          exact absurd rfl hcne
        · intro heq
          exact absurd heq (by simp)
      · have h' : ¬ ((("Error posting to Twitter: " ++
            (if e.message == "" then "Unknown error" else e.message) ++
            " (Code: " ++ toString c ++ ")") == "") = true) := by
          simpa using append_ne_empty_right _ ")" (by decide)
        have hcp : createPost (TwitterEnv.clientErr e) mockA mockB status =
            ⟨[⟨"text", "Error posting to Twitter: " ++
              (if e.message == "" then "Unknown error" else e.message) ++
              " (Code: " ++ toString c ++ ")"⟩]⟩ := by
          simp only [createPost, hc]
          rw [if_neg hc0]
        have hstep : twitterToolText (createPost (TwitterEnv.clientErr e) mockA mockB status) =
            "\x1b[1;32mTweet created successfully:\x1b[0m " ++
            ("Error posting to Twitter: " ++
              (if e.message == "" then "Unknown error" else e.message) ++
              " (Code: " ++ toString c ++ ")") ++ "\n" := by
          rw [hcp]
          simp only [twitterToolText, List.head?]
          rw [if_neg h']
        refine ⟨⟨_, by rw [hstep, String.append_assoc]⟩, by rw [hcp]; rfl, ?_, ?_⟩
        · intro e' c' heq hcode hcne
          injection heq with he'
          subst he'
          rw [hc] at hcode
          injection hcode with hcc
          subst hcc
          exact hstep
        · intro heq
          exact absurd heq (by simp)
  | noClient =>
    have hstep : twitterToolText (createPost TwitterEnv.noClient mockA mockB status) =
        "\x1b[1;32mTweet created successfully:\x1b[0m " ++
        ("Tweet created successfully: Tweet sent successfully: " ++
          toString mockA ++ toString mockB ++
          "\nContent: \"" ++ status ++ "\"") ++ "\n" := by
      simp only [createPost, twitterToolText, List.head?]
      rw [if_neg hM]
    refine ⟨⟨_, by rw [hstep, String.append_assoc]⟩, rfl, ?_, fun _ => hstep⟩
    intro e c heq
    exact absurd heq (by simp)

/-- Closed instance of `tweet_handler_wraps_every_outcome` at a concrete
API failure. -/
theorem tweet_handler_wraps_every_outcome_w :
    twitterToolText (createPost (TwitterEnv.clientErr ⟨"boom", some 7⟩) 1 2 "hi") =
      "\x1b[1;32mTweet created successfully:\x1b[0m " ++
      ("Error posting to Twitter: " ++ "boom" ++ " (Code: " ++
        toString (7 : Nat) ++ ")") ++ "\n" ∧
    (createPost (TwitterEnv.clientErr ⟨"boom", some 7⟩) 1 2 "hi").content.length = 1 :=
  ⟨by
    have h := (tweet_handler_wraps_every_outcome
        (TwitterEnv.clientErr ⟨"boom", some 7⟩) 1 2 "hi").2.2.1
        ⟨"boom", some 7⟩ 7 rfl rfl (by decide)
    simpa using h,
   (tweet_handler_wraps_every_outcome
      (TwitterEnv.clientErr ⟨"boom", some 7⟩) 1 2 "hi").2.1⟩

/-- C10: in degraded (no API key) mode, whenever the lowercased latest
user query contains `repo`, `repository` or `github`, the planner
proposes a `github-repo-info` invocation — this branch precedes the tweet
branch, so it wins even when the message also asks to post — with owner
taken from the `owned by/from/by/of` regex (default `EcoLash`) and repo
from the `repo(sitory) named/called` regex (default `Compilers`); in
particular, when neither regex matches, the hard-coded defaults are
proposed. -/
theorem degraded_repo_query_proposes_github (tools : List ToolDecl)
    (primary : PrimaryOutcome) (hist : List ChatMessage)
    (h : (strIncludes (userQueryOf hist) "repo" ||
          strIncludes (userQueryOf hist) "repository" ||
          strIncludes (userQueryOf hist) "github") = true) :
    generateContent "" tools primary hist =
      ⟨some ⟨"github-repo-info",
        [("owner", JVal.str ((ownerScan (userQueryOf hist).data).getD "EcoLash")),
         ("repo", JVal.str ((repoScan (userQueryOf hist).data).getD "Compilers"))]⟩,
       none⟩ ∧
    (ownerScan (userQueryOf hist).data = none →
     repoScan (userQueryOf hist).data = none →
      generateContent "" tools primary hist =
        ⟨some ⟨"github-repo-info",
          [("owner", JVal.str "EcoLash"), ("repo", JVal.str "Compilers")]⟩,
         none⟩) := by
  have hgen : generateContent "" tools primary hist =
      fallbackRespond (userQueryOf hist) :=
    generateContent_eq_fallback "" tools primary hist (Or.inl rfl)
  constructor
  · rw [hgen]
    simp [fallbackRespond, h]
  · intro ho hr
    rw [hgen]
    simp [fallbackRespond, h, ho, hr]

/-- Closed instance of `degraded_repo_query_proposes_github`: a message
that also asks to post still lands on the repo branch with both
defaults. -/
theorem degraded_repo_query_proposes_github_w :
    generateContent "" [] PrimaryOutcome.threw
        [⟨Role.user, [⟨"Post a tweet about my GitHub repo", "text"⟩]⟩] =
      ⟨some ⟨"github-repo-info",
        [("owner", JVal.str "EcoLash"), ("repo", JVal.str "Compilers")]⟩,
       none⟩ :=
  (degraded_repo_query_proposes_github [] PrimaryOutcome.threw
      [⟨Role.user, [⟨"Post a tweet about my GitHub repo", "text"⟩]⟩]
      (by decide)).2 (by decide) (by decide)
